import Mathlib

/-!
Shallow embedding of the two provisioning utilities of this repository:

* `observability/grafana/import_dashboard.py` — a standalone script that
  polls the Grafana health endpoint until ready and then uploads a
  dashboard definition with basic authentication;
* `src/infrastructure/LiveEventService.Infrastructure.CDK/Lambda/grafana_provisioner.py`
  — a CloudFormation custom-resource handler that provisions an API key,
  upserts a Prometheus data source, fetches dashboard JSON blobs from S3
  and imports them, reporting the outcome via a callback PUT.

Network and AWS effects are modelled by an explicit trace of `Call`s made by
the code, with an `Oracle` supplying the response of every external request.
Python strings that the code parses character by character (S3 locators,
the `DASHBOARD_URIS` environment value) are modelled as `List Char`;
all other strings stay `String`.
-/

namespace LiveEvent

/-- A Python exception as observable by the code: `urllib.error.HTTPError`
carries the HTTP status code, the error reason (used by `str(e)`) and the
readable response body (`e.read()`); every other exception is `other` with
its message. -/
inductive PyErr where
  | httpError (code : Nat) (msg : String) (body : String)
  | other (msg : String)
deriving DecidableEq, Repr

/-- `str(e)` for a Python exception: `HTTPError.__str__` is
`HTTP Error {code}: {msg}`; for other exceptions it is the message itself. -/
def PyErr.message : PyErr → String
  | .httpError code msg _ => "HTTP Error " ++ toString code ++ ": " ++ msg
  | .other m => m

/-- `True` exactly on `Except.ok`. -/
def exceptOk {ε α : Type} : Except ε α → Bool
  | .ok _ => true
  | .error _ => false

/-! ### Readiness waiter (`wait_for_grafana_ready`, import_dashboard.py lines 17-28)

The health endpoint's behaviour is a function from the poll attempt number to
the observed outcome: a response with some HTTP status, or a raised request
error (connection refused, timeout, ...).  Time is modelled in seconds; each
loop iteration costs the constant `time.sleep(2)` poll interval, so attempt
`n` happens at `2 * n` seconds after start, and the loop guard
`time.time() < deadline` is `elapsed < timeout`. -/

/-- Outcome of one health-check request. -/
inductive HealthResult where
  | ok (status : Nat)
  | connErr
deriving DecidableEq, Repr

/-- Result of the waiter: returned normally at some attempt/elapsed time, or
raised `TimeoutError` with the elapsed time at the raise. -/
inductive WaitOutcome where
  | ready (attempt : Nat) (elapsed : Nat)
  | timedOut (elapsed : Nat)
deriving DecidableEq, Repr

/-- The polling loop of `wait_for_grafana_ready`: while the deadline has not
passed, issue a health check; return on status 200, swallow anything else and
sleep 2 seconds. -/
def waitLoop (health : Nat → HealthResult) (timeout elapsed n : Nat) : WaitOutcome :=
  if _h : elapsed < timeout then
    match health n with
    | .ok status =>
        if status = 200 then .ready n elapsed
        else waitLoop health timeout (elapsed + 2) (n + 1)
    | .connErr => waitLoop health timeout (elapsed + 2) (n + 1)
  else .timedOut elapsed
termination_by timeout - elapsed
decreasing_by all_goals omega

/-- `wait_for_grafana_ready(timeout_seconds)`: start the polling loop at time
0, attempt 0. -/
def wait_for_grafana_ready (health : Nat → HealthResult) (timeout_seconds : Nat) : WaitOutcome :=
  waitLoop health timeout_seconds 0 0

lemma waitLoop_ready_iff (health : Nat → HealthResult) (timeout : Nat) :
    ∀ f n, timeout ≤ 2 * n + 2 * f →
      ((∃ m, n ≤ m ∧ 2 * m < timeout ∧ health m = .ok 200) ↔
        ∃ k, waitLoop health timeout (2 * n) n = .ready k (2 * k)) := by
  intro f
  induction f with
  | zero =>
    intro n hf
    rw [waitLoop]
    have hnot : ¬ (2 * n < timeout) := by omega
    simp only [hnot, dite_false]
    constructor
    · rintro ⟨m, hnm, hm, _⟩
      omega
    · rintro ⟨k, hk⟩
      cases hk
  | succ f ih =>
    intro n hf
    by_cases h2 : 2 * n < timeout
    · rw [waitLoop]
      simp only [h2, dite_true]
      cases hh : health n with
      | ok status =>
        by_cases hs : status = 200
        · subst hs
          simp only [if_true]
          constructor
          · intro _
            exact ⟨n, rfl⟩
          · intro _
            exact ⟨n, le_refl n, h2, hh⟩
        · simp only [hs, if_false]
          have hrw : 2 * n + 2 = 2 * (n + 1) := by ring
          rw [hrw]
          rw [← ih (n + 1) (by omega)]
          constructor
          · rintro ⟨m, hnm, hm, hok⟩
            refine ⟨m, ?_, hm, hok⟩
            rcases Nat.eq_or_lt_of_le hnm with heq | hlt
            · exfalso
              rw [← heq] at hok
              rw [hh] at hok
              injection hok with hinj
              exact hs hinj
            · omega
          · rintro ⟨m, hnm, hm, hok⟩
            exact ⟨m, by omega, hm, hok⟩
      | connErr =>
        have hrw : 2 * n + 2 = 2 * (n + 1) := by ring
        rw [hrw]
        rw [← ih (n + 1) (by omega)]
        constructor
        · rintro ⟨m, hnm, hm, hok⟩
          refine ⟨m, ?_, hm, hok⟩
          rcases Nat.eq_or_lt_of_le hnm with heq | hlt
          · exfalso
            rw [← heq] at hok
            rw [hh] at hok
            cases hok
          · omega
        · rintro ⟨m, hnm, hm, hok⟩
          exact ⟨m, by omega, hm, hok⟩
    · rw [waitLoop]
      simp only [h2, dite_false]
      constructor
      · rintro ⟨m, hnm, hm, _⟩
        omega
      · rintro ⟨k, hk⟩
        cases hk

lemma waitLoop_timeout (health : Nat → HealthResult) (timeout : Nat) :
    ∀ f n, timeout ≤ 2 * n + 2 * f → 2 * n < timeout + 2 →
      (∀ m, n ≤ m → 2 * m < timeout → health m ≠ .ok 200) →
      ∃ e, waitLoop health timeout (2 * n) n = .timedOut e ∧
        timeout ≤ e ∧ e < timeout + 2 := by
  intro f
  induction f with
  | zero =>
    intro n hf hlt _
    rw [waitLoop]
    have hnot : ¬ (2 * n < timeout) := by omega
    simp only [hnot, dite_false]
    exact ⟨2 * n, rfl, by omega, hlt⟩
  | succ f ih =>
    intro n hf hlt hnone
    by_cases h2 : 2 * n < timeout
    · rw [waitLoop]
      simp only [h2, dite_true]
      have hrw : 2 * n + 2 = 2 * (n + 1) := by ring
      cases hh : health n with
      | ok status =>
        have hs : status ≠ 200 := by
          intro hs
          subst hs
          exact hnone n (le_refl n) h2 hh
        simp only [hs, if_false]
        rw [hrw]
        exact ih (n + 1) (by omega) (by omega)
          (fun m hm hm' => hnone m (by omega) hm')
      | connErr =>
        rw [hrw]
        exact ih (n + 1) (by omega) (by omega)
          (fun m hm hm' => hnone m (by omega) hm')
    · rw [waitLoop]
      simp only [h2, dite_false]
      exact ⟨2 * n, rfl, by omega, hlt⟩

/-- C7. For every health-check behaviour: the waiter returns normally iff a
success (200) response appears at one of its polls before the deadline — the
returning poll `k` happening at elapsed time exactly `2 * k`, the constant
2-second interval with no backoff; request errors and non-200 statuses are
swallowed and merely continue the loop.  If no success appears before the
deadline the waiter raises `TimeoutError` at an elapsed time `e` with
`timeout ≤ e < timeout + 2`, i.e. at least the deadline, within one poll
interval. -/
theorem waiter_ready_or_timeout (health : Nat → HealthResult) (timeout : Nat) :
    ((∃ m, 2 * m < timeout ∧ health m = .ok 200) ↔
      ∃ k, wait_for_grafana_ready health timeout = .ready k (2 * k)) ∧
    ((∀ m, 2 * m < timeout → health m ≠ .ok 200) →
      ∃ e, wait_for_grafana_ready health timeout = .timedOut e ∧
        timeout ≤ e ∧ e < timeout + 2) := by
  constructor
  · have h := waitLoop_ready_iff health timeout timeout 0 (by omega)
    simp only [Nat.mul_zero, Nat.zero_le, true_and] at h
    exact h
  · intro hnone
    have h := waitLoop_timeout health timeout timeout 0 (by omega) (by omega)
      (fun m _ hm => hnone m hm)
    simp only [Nat.mul_zero] at h
    exact h

/-- Example health behaviour: ready at the second poll. -/
def healthReadyAt1 (n : Nat) : HealthResult :=
  if n = 1 then .ok 200 else .connErr

/-- Example health behaviour: never ready. -/
def healthNever (_ : Nat) : HealthResult := .connErr

theorem waiter_ready_or_timeout_witness :
    (∃ k, wait_for_grafana_ready healthReadyAt1 10 = .ready k (2 * k)) ∧
    (∃ e, wait_for_grafana_ready healthNever 10 = .timedOut e ∧
      10 ≤ e ∧ e < 10 + 2) :=
  ⟨(waiter_ready_or_timeout healthReadyAt1 10).1.mp ⟨1, by omega, by decide⟩,
   (waiter_ready_or_timeout healthNever 10).2 (fun m _ => by simp [healthNever])⟩

/-! ### String primitives used by the handler

The handler parses S3 locators and the `DASHBOARD_URIS` value character by
character; those strings are modelled as `List Char`. -/

/-- Python `s.partition(sep)` for a non-empty separator: split at the first
occurrence of `sep`, returning `(before, sep, after)`; if `sep` does not
occur, return `(s, '', '')`. -/
def listPartition (sep : List Char) : List Char → List Char × List Char × List Char
  | [] => ([], [], [])
  | c :: cs =>
    if sep.isPrefixOf (c :: cs) then ([], sep, (c :: cs).drop sep.length)
    else
      match listPartition sep cs with
      | (_, [], _) => (c :: cs, [], [])
      | (pre, found, post) => (c :: pre, found, post)

/-- Python `s.split(sep)` for a one-character separator: keeps empty pieces,
`''.split(',') == ['']`. -/
def splitOnChar (sep : Char) : List Char → List (List Char)
  | [] => [[]]
  | c :: cs =>
    if c = sep then [] :: splitOnChar sep cs
    else
      match splitOnChar sep cs with
      | [] => [[c]]
      | t :: ts => (c :: t) :: ts

/-- The ASCII whitespace characters stripped by Python `str.strip()`. -/
def isPySpace (c : Char) : Bool :=
  c == ' ' || c == '\t' || c == '\n' || c == '\x0d' || c == '\x0b' || c == '\x0c'

/-- Python `s.strip()`: drop leading and trailing whitespace. -/
def stripPy (l : List Char) : List Char :=
  ((l.dropWhile isPySpace).reverse.dropWhile isPySpace).reverse

/-- Handler line 117: `filter(None, [u.strip() for u in s3_uris.split(',')])`
— split the configured value on commas, strip each entry, drop blanks. -/
def parseUris (s3_uris : List Char) : List (List Char) :=
  ((splitOnChar ',' s3_uris).map stripPy).filter (fun u => !u.isEmpty)

lemma isPrefixOf_append_self (xs ys : List Char) : xs.isPrefixOf (xs ++ ys) = true := by
  induction xs with
  | nil => simp [List.isPrefixOf]
  | cons a as ih => simp [List.isPrefixOf, ih]

lemma listPartition_append_self (sep ys : List Char) (h : sep ≠ []) :
    listPartition sep (sep ++ ys) = ([], sep, ys) := by
  cases sep with
  | nil => exact absurd rfl h
  | cons c cs =>
    show listPartition (c :: cs) (c :: (cs ++ ys)) = _
    rw [listPartition]
    have hpre : (c :: cs).isPrefixOf (c :: (cs ++ ys)) = true :=
      isPrefixOf_append_self (c :: cs) ys
    simp only [hpre, if_true]
    show ([], c :: cs, ((c :: cs) ++ ys).drop (c :: cs).length) = ([], c :: cs, ys)
    rw [List.drop_left]

lemma listPartition_no_sep_char (rest : List Char) (h : ∀ c ∈ rest, c ≠ '/') :
    listPartition ['/'] rest = (rest, [], []) := by
  induction rest with
  | nil => rfl
  | cons c cs ih =>
    rw [listPartition]
    have hc : c ≠ '/' := h c (List.mem_cons_self c cs)
    have hpre : (['/'] : List Char).isPrefixOf (c :: cs) = false := by
      simp [List.isPrefixOf]
      intro hcontra
      exact hc hcontra.symm
    simp only [hpre, Bool.false_eq_true, if_false]
    rw [ih (fun x hx => h x (List.mem_cons_of_mem c hx))]

/-! ### Data model shared by the two importers -/

/-- An opaque JSON document; the code only passes dashboards through. -/
inductive Json where
  | null
  | bool (b : Bool)
  | num (n : Int)
  | str (s : String)
  | arr (elems : List Json)
  | obj (fields : List (String × Json))

/-- The import envelope `{dashboard, overwrite, folderId}` built by
both importers (import_dashboard.py lines 35-39, grafana_provisioner.py
lines 76-80). -/
structure ImportPayload where
  dashboard : Json
  overwrite : Bool
  folderId : Nat

/-- The authentication scheme of an outgoing request: the standalone script
uses `Basic`, the handler uses `Bearer`. -/
inductive Auth where
  | basic (user pw : String)
  | bearer (token : String)

/-- The Prometheus data-source definition payload (grafana_provisioner.py
lines 43-54); `dstype` is the JSON field `type`. -/
structure DsPayload where
  name : String
  dstype : String
  uid : String
  access : String
  url : String
  httpMethod : String
  sigV4Auth : Bool
  sigV4Region : String

/-- The data-source payload as built for a region and AMP workspace. -/
def prom_payload (region amp_workspace_id : String) : DsPayload where
  name := "Prometheus"
  dstype := "prometheus"
  uid := "prom"
  access := "proxy"
  url := "https://aps-workspaces." ++ region ++ ".amazonaws.com/workspaces/"
    ++ amp_workspace_id ++ "/api/v1/query"
  httpMethod := "POST"
  sigV4Auth := true
  sigV4Region := region

/-- The JSON envelope of the CloudFormation callback PUT
(grafana_provisioner.py lines 13-21). -/
structure CfnBody where
  Status : String
  Reason : String
  PhysicalResourceId : String
  StackId : String
  RequestId : String
  LogicalResourceId : String
  Data : List (String × String)

/-- One external request issued by the handler, in issue order. -/
inductive Call where
  | createApiKey (keyName keyRole : String) (secondsToLive : Nat) (workspaceId : String)
  | dsPut (url : String) (auth : Auth) (payload : DsPayload)
  | dsPost (url : String) (auth : Auth) (payload : DsPayload)
  | s3Get (bucket key : List Char)
  | dashImport (url : String) (auth : Auth) (payload : ImportPayload) (idx : Nat)
  | cfnPut (url : String) (body : CfnBody)

/-- Calls other than the CloudFormation callback. -/
def Call.isBackend : Call → Bool
  | .cfnPut _ _ => false
  | _ => true

/-- Is this call a dashboard import? -/
def Call.isDashImport : Call → Bool
  | .dashImport _ _ _ _ => true
  | _ => false

/-- Responses of the external world to the handler's requests.  `loads` is
`json.loads`; `importResp` is indexed by the number of prior dashboard-import
requests; `s3GetResp` answers `get_object` per bucket/key. -/
structure Oracle where
  loads : String → Except PyErr Json
  createKey : Except PyErr String
  dsPutResp : Except PyErr Unit
  dsPostResp : Except PyErr Unit
  s3GetResp : List Char → List Char → Except PyErr String
  importResp : Nat → Except PyErr Unit

/-- The lifecycle event received by the handler; only the fields the code
reads. -/
structure Event where
  RequestType : Option String
  ResponseURL : Option String
  StackId : String
  RequestId : String
  LogicalResourceId : String

/-- The Lambda context; only `log_stream_name` is read. -/
structure Context where
  log_stream_name : String

/-- The handler's environment variables; `none` models an absent variable. -/
structure Env where
  AWS_REGION : Option String
  GRAFANA_WORKSPACE_ID : Option String
  GRAFANA_ENDPOINT : Option String
  AMP_WORKSPACE_ID : Option String
  DASHBOARD_URIS : Option (List Char)

/-- `os.environ[name]`: the value, or a raised `KeyError`. -/
def envGet (v : Option String) (name : String) : Except PyErr String :=
  match v with
  | some s => .ok s
  | none => .error (.other ("KeyError: " ++ name))

/-- Python `reason or default`: `None` and the empty string both fall back to
the default (grafana_provisioner.py line 15). -/
def reasonOrDefault (reason : Option String) (d : String) : String :=
  match reason with
  | none => d
  | some r => if r = "" then d else r

/-- `send_cfn_response` (grafana_provisioner.py lines 9-28): without a
`ResponseURL` it silently does nothing; otherwise it issues exactly one PUT
to that URL carrying the fixed-shape envelope. -/
def send_cfn_response (event : Event) (ctx : Context) (status : String)
    (data : List (String × String)) (reason : Option String) : List Call :=
  match event.ResponseURL with
  | none => []
  | some url =>
    [Call.cfnPut url
      { Status := status
        Reason := reasonOrDefault reason
          ("See the details in CloudWatch Log Stream: " ++ ctx.log_stream_name)
        PhysicalResourceId := ctx.log_stream_name
        StackId := event.StackId
        RequestId := event.RequestId
        LogicalResourceId := event.LogicalResourceId
        Data := data }]

/-! ### S3 fetch (`get_dashboard_json`, grafana_provisioner.py lines 31-38) -/

/-- The parse step of `get_dashboard_json`: `None` when the locator is empty
or does not start with `s3://`; otherwise the bucket (up to the first `/`
after the scheme) and key (the rest, empty when there is no `/`). -/
def s3_request (s3_uri : List Char) : Option (List Char × List Char) :=
  if s3_uri = [] ∨ ("s3://".toList.isPrefixOf s3_uri) = false then none
  else
    let rest := (listPartition "s3://".toList s3_uri).2.2
    let p := listPartition ['/'] rest
    some (p.1, p.2.2)

/-- `get_dashboard_json`: no call and `None` for an empty/malformed locator;
otherwise one `get_object` call whose body (or error) is the oracle's
answer. -/
def get_dashboard_json (o : Oracle) (s3_uri : List Char) :
    Option Call × Except PyErr (Option String) :=
  match s3_request s3_uri with
  | none => (none, .ok none)
  | some (bucket, key) =>
    (some (.s3Get bucket key), Except.map some (o.s3GetResp bucket key))

/-! ### Data-source upsert (`ensure_prom_datasource`, lines 41-72)

The backend is a state `σ` with one transition per endpoint, so the same
definition serves both an arbitrary response oracle and the stateful Grafana
model used for the idempotence consequence. -/

/-- `ensure_prom_datasource`: try `PUT /api/datasources/uid/prom` first; on
an `HTTPError` with code 404 or 400 fall back to `POST /api/datasources`;
re-raise any other `HTTPError`, and let non-HTTP errors propagate.  Returns
the requests issued, the result, and the final backend state. -/
def ensure_prom_datasource {σ : Type} (put post : σ → Except PyErr Unit × σ)
    (grafana_url api_key region amp_workspace_id : String) (s : σ) :
    List Call × Except PyErr Unit × σ :=
  let payload := prom_payload region amp_workspace_id
  let putCall := Call.dsPut (grafana_url ++ "/api/datasources/uid/prom")
    (Auth.bearer api_key) payload
  match put s with
  | (.ok _, s1) => ([putCall], .ok (), s1)
  | (.error e, s1) =>
    match e with
    | .httpError code msg body =>
      if code = 404 ∨ code = 400 then
        let postCall := Call.dsPost (grafana_url ++ "/api/datasources")
          (Auth.bearer api_key) payload
        let (r, s2) := post s1
        ([putCall, postCall], r, s2)
      else ([putCall], .error (.httpError code msg body), s1)
    | .other m => ([putCall], .error (.other m), s1)

/-- State of the external Grafana data-source API: whether a data source with
uid `prom` exists.  Used only to state the idempotence consequence. -/
structure GrafanaState where
  promExists : Bool
deriving DecidableEq

/-- Model of Grafana `PUT /api/datasources/uid/prom`: succeeds when the data
source exists, otherwise responds 404. -/
def grafanaPut (s : GrafanaState) : Except PyErr Unit × GrafanaState :=
  if s.promExists then (.ok (), s)
  else (.error (.httpError 404 "Not Found" ""), s)

/-- Model of Grafana `POST /api/datasources`: creates the data source. -/
def grafanaPost (_ : GrafanaState) : Except PyErr Unit × GrafanaState :=
  (.ok (), ⟨true⟩)

/-! ### Dashboard import (handler, lines 75-88) and the import loop -/

/-- The handler's `import_dashboard`: `json.loads` the body (a raised parse
error propagates before any request), then POST the forced-overwrite
envelope with bearer auth; `k` is the number of prior import requests. -/
def import_dashboard (o : Oracle) (grafana_url api_key : String)
    (dashboard_json : String) (k : Nat) : List Call × Except PyErr Unit :=
  match o.loads dashboard_json with
  | .error e => ([], .error e)
  | .ok d =>
    ([Call.dashImport (grafana_url ++ "/api/dashboards/db") (Auth.bearer api_key)
        { dashboard := d, overwrite := true, folderId := 0 } k],
     o.importResp k)

/-- The `for uri in ...` loop of the handler (lines 117-120): fetch each
locator in order, skip locators that parse to nothing and bodies that are
`None` or empty, import the rest; the first raised error aborts the loop. -/
def importLoop (o : Oracle) (endpoint api_key : String) :
    List (List Char) → Nat → List Call × Except PyErr Unit
  | [], _ => ([], .ok ())
  | uri :: rest, k =>
    match get_dashboard_json o uri with
    | (fetchCall, .error e) => (fetchCall.toList, .error e)
    | (fetchCall, .ok none) =>
      let (cs, r) := importLoop o endpoint api_key rest k
      (fetchCall.toList ++ cs, r)
    | (fetchCall, .ok (some body)) =>
      if body = "" then
        let (cs, r) := importLoop o endpoint api_key rest k
        (fetchCall.toList ++ cs, r)
      else
        match import_dashboard o endpoint api_key body k with
        | (impCalls, .error e) => (fetchCall.toList ++ impCalls, .error e)
        | (impCalls, .ok _) =>
          let (cs, r) := importLoop o endpoint api_key rest (k + 1)
          (fetchCall.toList ++ (impCalls ++ cs), r)

/-! ### The handler (lines 91-127) -/

/-- The body of the top-level try block on the Create/Update path (lines
95-120): read the required environment variables (a missing one raises
`KeyError`), create the short-lived admin API key, ensure the data source,
then run the loop.  Returns the calls issued, and `ok` or the first raised
error. -/
def provision (o : Oracle) (env : Env) : List Call × Except PyErr Unit :=
  match envGet env.AWS_REGION "AWS_REGION" with
  | .error e => ([], .error e)
  | .ok region =>
    match envGet env.GRAFANA_WORKSPACE_ID "GRAFANA_WORKSPACE_ID" with
    | .error e => ([], .error e)
    | .ok workspace_id =>
      match envGet env.GRAFANA_ENDPOINT "GRAFANA_ENDPOINT" with
      | .error e => ([], .error e)
      | .ok endpoint =>
        match envGet env.AMP_WORKSPACE_ID "AMP_WORKSPACE_ID" with
        | .error e => ([], .error e)
        | .ok amp_workspace_id =>
          let s3_uris := env.DASHBOARD_URIS.getD []
          let keyCall := Call.createApiKey "cdk-provision" "ADMIN" 3600 workspace_id
          match o.createKey with
          | .error e => ([keyCall], .error e)
          | .ok api_key =>
            match ensure_prom_datasource (fun u => (o.dsPutResp, u))
                (fun u => (o.dsPostResp, u)) endpoint api_key region
                amp_workspace_id () with
            | (dsCalls, .error e, _) => (keyCall :: dsCalls, .error e)
            | (dsCalls, .ok _, _) =>
              let (loopCalls, r) := importLoop o endpoint api_key (parseUris s3_uris) 0
              (keyCall :: (dsCalls ++ loopCalls), r)

/-- `event.get('RequestType', 'Create')` (line 92). -/
def requestTypeOf (event : Event) : String :=
  event.RequestType.getD "Create"

/-- The handler entry point: dispatch on the request type; any exception on
the provisioning path is caught once at the top and turned into a FAILED
callback carrying `str(e)`; every other request type reports SUCCESS with
`{'Status': 'Deleted'}` and does nothing else. -/
def handler (o : Oracle) (env : Env) (event : Event) (ctx : Context) : List Call :=
  if requestTypeOf event = "Create" ∨ requestTypeOf event = "Update" then
    match provision o env with
    | (calls, .ok _) =>
      calls ++ send_cfn_response event ctx "SUCCESS" [("Status", "Provisioned")] none
    | (calls, .error e) =>
      calls ++ send_cfn_response event ctx "FAILED" [] (some (PyErr.message e))
  else
    send_cfn_response event ctx "SUCCESS" [("Status", "Deleted")] none

/-! ### The standalone importer (`import_dashboard`, import_dashboard.py lines 31-55) -/

/-- An outgoing HTTP request of the standalone importer. -/
structure HttpRequest where
  url : String
  method : String
  auth : Auth
  payload : ImportPayload

/-- The standalone `import_dashboard()`: build the forced-overwrite envelope
from the parsed dashboard file, POST it with basic auth; on success print
the status and body, on `HTTPError` print the code and body and re-raise;
other errors propagate unprinted.  Returns the request, printed lines and
result. -/
def import_dashboard_script (dashboard : Json) (grafana_url user pw : String)
    (resp : Except PyErr (Nat × String)) :
    HttpRequest × List String × Except PyErr Unit :=
  let payload : ImportPayload := { dashboard := dashboard, overwrite := true, folderId := 0 }
  let req : HttpRequest :=
    { url := grafana_url ++ "/api/dashboards/db", method := "POST",
      auth := Auth.basic user pw, payload := payload }
  match resp with
  | .ok (status, respBody) =>
    (req, ["Imported dashboard: " ++ toString status, respBody], .ok ())
  | .error (.httpError code msg ebody) =>
    (req, ["Import failed: " ++ toString code, ebody], .error (.httpError code msg ebody))
  | .error (.other m) => (req, [], .error (.other m))

/-! ### Trace predicates -/

/-- The S3 `get_object` requests of a trace, in order. -/
def s3FetchesOf (cs : List Call) : List (List Char × List Char) :=
  cs.filterMap (fun c => match c with | .s3Get b k => some (b, k) | _ => none)

/-- Head condition of `noImportsAfterFailing`: a dashboard-import call either
succeeded per the oracle, or nothing after it is an import. -/
def importOkOrNoneAfter (o : Oracle) (c : Call) (rest : List Call) : Bool :=
  match c with
  | .dashImport _ _ _ k =>
    exceptOk (o.importResp k) || rest.all (fun x => !x.isDashImport)
  | _ => true

/-- No dashboard import occurs after a failing one anywhere in the trace. -/
def noImportsAfterFailing (o : Oracle) : List Call → Bool
  | [] => true
  | c :: rest => importOkOrNoneAfter o c rest && noImportsAfterFailing o rest

lemma importOkOrNoneAfter_of_not_import (o : Oracle) (c : Call) (rest : List Call)
    (h : c.isDashImport = false) : importOkOrNoneAfter o c rest = true := by
  cases c <;> first
    | rfl
    | (simp [Call.isDashImport] at h)

lemma noImp_of_no_imports (o : Oracle) (xs : List Call)
    (h : xs.all (fun c => !c.isDashImport) = true) :
    noImportsAfterFailing o xs = true := by
  induction xs with
  | nil => rfl
  | cons c cs ih =>
    rw [List.all_cons, Bool.and_eq_true] at h
    rw [noImportsAfterFailing, importOkOrNoneAfter_of_not_import o c cs
      (by simpa using h.1), ih h.2]
    rfl

lemma noImp_append_left (o : Oracle) (xs ys : List Call)
    (h : xs.all (fun c => !c.isDashImport) = true) :
    noImportsAfterFailing o (xs ++ ys) = noImportsAfterFailing o ys := by
  induction xs with
  | nil => rfl
  | cons c cs ih =>
    rw [List.all_cons, Bool.and_eq_true] at h
    rw [List.cons_append, noImportsAfterFailing,
      importOkOrNoneAfter_of_not_import o c (cs ++ ys)
        (by simpa using h.1),
      ih h.2, Bool.true_and]

lemma noImp_append_right (o : Oracle) (xs ys : List Call)
    (h : ys.all (fun c => !c.isDashImport) = true) :
    noImportsAfterFailing o (xs ++ ys) = noImportsAfterFailing o xs := by
  induction xs with
  | nil =>
    rw [List.nil_append, noImp_of_no_imports o ys h]
    rfl
  | cons c cs ih =>
    rw [List.cons_append, noImportsAfterFailing, noImportsAfterFailing, ih]
    have hhead : importOkOrNoneAfter o c (cs ++ ys) = importOkOrNoneAfter o c cs := by
      cases c <;> simp [importOkOrNoneAfter, List.all_append, h]
    rw [hhead]

/-! ### Claims about the S3 locator parse -/

/-- C5. A locator that does not start with `s3://` (including the empty
string, `http://...` and `s3:/missing-slash`) yields no fetch call, no error
and no body, and the handler's import loop treats the entry exactly as if it
were absent. -/
theorem malformed_locator_skipped (o : Oracle) (uri : List Char)
    (h : ("s3://".toList.isPrefixOf uri) = false) :
    get_dashboard_json o uri = (none, .ok none) ∧
    ∀ ep ak rest k, importLoop o ep ak (uri :: rest) k = importLoop o ep ak rest k := by
  have hreq : s3_request uri = none := by
    unfold s3_request
    rw [if_pos (Or.inr h)]
  have hget : get_dashboard_json o uri = (none, .ok none) := by
    unfold get_dashboard_json
    rw [hreq]
  refine ⟨hget, ?_⟩
  intro ep ak rest k
  rw [importLoop, hget]
  cases himp : importLoop o ep ak rest k with
  | mk cs r => simp

/-- Oracle used by the concrete witnesses: every request succeeds, `loads`
parses any body to an opaque document. -/
def oracleOK : Oracle where
  loads := fun s => .ok (Json.str s)
  createKey := .ok "apikey"
  dsPutResp := .ok ()
  dsPostResp := .ok ()
  s3GetResp := fun _ _ => .ok "dash"
  importResp := fun _ => .ok ()

theorem malformed_locator_skipped_witness :
    get_dashboard_json oracleOK "".toList = (none, .ok none) ∧
    get_dashboard_json oracleOK "http://bucket/key".toList = (none, .ok none) ∧
    get_dashboard_json oracleOK "s3:/missing-slash".toList = (none, .ok none) :=
  ⟨(malformed_locator_skipped oracleOK "".toList (by decide)).1,
   (malformed_locator_skipped oracleOK "http://bucket/key".toList (by decide)).1,
   (malformed_locator_skipped oracleOK "s3:/missing-slash".toList (by decide)).1⟩

/-- C10. A locator of the form `s3://` followed by a slash-free remainder is
not skipped: the code issues a `get_object` call with the whole remainder as
the bucket and the empty key, and the oracle's answer — including any
error — is what the operation returns. -/
theorem missing_slash_locator_fetches (o : Oracle) (rest : List Char)
    (h : ∀ c ∈ rest, c ≠ '/') :
    get_dashboard_json o ("s3://".toList ++ rest) =
      (some (.s3Get rest []), Except.map some (o.s3GetResp rest [])) ∧
    ∀ e, o.s3GetResp rest [] = .error e →
      (get_dashboard_json o ("s3://".toList ++ rest)).2 = .error e := by
  have hne : ("s3://".toList ++ rest) ≠ [] := by
    intro habs
    have := congrArg List.length habs
    simp at this
  have hpre : ("s3://".toList.isPrefixOf ("s3://".toList ++ rest)) = true :=
    isPrefixOf_append_self _ _
  have hreq : s3_request ("s3://".toList ++ rest) = some (rest, []) := by
    unfold s3_request
    rw [if_neg]
    · rw [listPartition_append_self "s3://".toList rest (by decide)]
      show some ((listPartition ['/'] rest).1, (listPartition ['/'] rest).2.2) = _
      rw [listPartition_no_sep_char rest h]
    · rintro (habs | habs)
      · exact hne habs
      · rw [hpre] at habs
        cases habs
  have hget : get_dashboard_json o ("s3://".toList ++ rest) =
      (some (.s3Get rest []), Except.map some (o.s3GetResp rest [])) := by
    unfold get_dashboard_json
    rw [hreq]
  refine ⟨hget, ?_⟩
  intro e he
  rw [hget, he]
  rfl

theorem missing_slash_locator_fetches_witness :
    get_dashboard_json oracleOK ("s3://".toList ++ "bucket".toList) =
      (some (.s3Get "bucket".toList []),
       Except.map some (oracleOK.s3GetResp "bucket".toList [])) :=
  (missing_slash_locator_fetches oracleOK "bucket".toList (by decide)).1

/-! ### Claims about the standalone importer -/

/-- C8. The standalone importer: on a success response it prints the
backend-reported status code and the response body and returns normally; on
an HTTP error it prints the code and the error body and re-raises the same
error, which then terminates the process with a non-zero exit. -/
theorem script_import_reporting (d : Json) (grafana_url user pw : String) :
    (∀ status body,
      (import_dashboard_script d grafana_url user pw (.ok (status, body))).2 =
        (["Imported dashboard: " ++ toString status, body], .ok ())) ∧
    (∀ code msg body,
      (import_dashboard_script d grafana_url user pw
          (.error (.httpError code msg body))).2 =
        (["Import failed: " ++ toString code, body],
         .error (.httpError code msg body))) := by
  constructor
  · intro status body
    rfl
  · intro code msg body
    rfl

/-- C3. Both importers build the same forced envelope: the standalone script
POSTs `{dashboard, overwrite := true, folderId := 0}` with basic auth for
every dashboard document and every response behaviour; and whenever
`json.loads` parses the fetched body to a document `d`, the handler issues
one bearer-authenticated import request carrying exactly
`{dashboard := d, overwrite := true, folderId := 0}`. -/
theorem import_payload_forced :
    (∀ (d : Json) (url user pw : String) (resp : Except PyErr (Nat × String)),
      (import_dashboard_script d url user pw resp).1 =
        { url := url ++ "/api/dashboards/db", method := "POST",
          auth := .basic user pw,
          payload := { dashboard := d, overwrite := true, folderId := 0 } }) ∧
    (∀ (o : Oracle) (url key body : String) (d : Json) (k : Nat),
      o.loads body = .ok d →
      import_dashboard o url key body k =
        ([Call.dashImport (url ++ "/api/dashboards/db") (.bearer key)
            { dashboard := d, overwrite := true, folderId := 0 } k],
         o.importResp k)) := by
  constructor
  · intro d url user pw resp
    rcases resp with e | ⟨st, b⟩
    · rcases e with ⟨c, m, b⟩ | m <;> rfl
    · rfl
  · intro o url key body d k h
    unfold import_dashboard
    rw [h]

theorem import_payload_forced_witness :
    import_dashboard oracleOK "https://g.example" "apikey" "somebody" 3 =
      ([Call.dashImport ("https://g.example" ++ "/api/dashboards/db")
          (.bearer "apikey")
          { dashboard := Json.str "somebody", overwrite := true, folderId := 0 } 3],
       oracleOK.importResp 3) :=
  import_payload_forced.2 oracleOK "https://g.example" "apikey" "somebody"
    (Json.str "somebody") 3 rfl

/-! ### Claims about the data-source upsert -/

/-- C2. `ensure_prom_datasource` over an arbitrary stateful backend: when
the PUT by uid succeeds nothing else is requested; exactly when it raises an
`HTTPError` with code 404 or 400 the code falls back to one POST-create
whose outcome is the operation's outcome; an `HTTPError` with any other code
and any non-HTTP error propagate unchanged with no POST.  Consequently,
against the Grafana model (PUT succeeds iff the data source exists, POST
creates it) a second call right after a first one never errors, whether or
not the data source existed initially. -/
theorem datasource_upsert_spec :
    (∀ (σ : Type) (put post : σ → Except PyErr Unit × σ)
        (url key region amp : String) (s : σ),
      (∀ s1, put s = (.ok (), s1) →
        ensure_prom_datasource put post url key region amp s =
          ([Call.dsPut (url ++ "/api/datasources/uid/prom") (.bearer key)
              (prom_payload region amp)], .ok (), s1)) ∧
      (∀ code msg body s1, put s = (.error (.httpError code msg body), s1) →
        ((code = 404 ∨ code = 400) →
          ensure_prom_datasource put post url key region amp s =
            ([Call.dsPut (url ++ "/api/datasources/uid/prom") (.bearer key)
                (prom_payload region amp),
              Call.dsPost (url ++ "/api/datasources") (.bearer key)
                (prom_payload region amp)],
             (post s1).1, (post s1).2)) ∧
        (¬(code = 404 ∨ code = 400) →
          ensure_prom_datasource put post url key region amp s =
            ([Call.dsPut (url ++ "/api/datasources/uid/prom") (.bearer key)
                (prom_payload region amp)],
             .error (.httpError code msg body), s1))) ∧
      (∀ m s1, put s = (.error (.other m), s1) →
        ensure_prom_datasource put post url key region amp s =
          ([Call.dsPut (url ++ "/api/datasources/uid/prom") (.bearer key)
              (prom_payload region amp)], .error (.other m), s1))) ∧
    (∀ (b : Bool) (url key region amp : String),
      exceptOk (ensure_prom_datasource grafanaPut grafanaPost url key region amp
        (ensure_prom_datasource grafanaPut grafanaPost url key region amp
          ⟨b⟩).2.2).2.1 = true) := by
  constructor
  · intro σ put post url key region amp s
    refine ⟨?_, ?_, ?_⟩
    · intro s1 hput
      unfold ensure_prom_datasource
      rw [hput]
    · intro code msg body s1 hput
      constructor
      · intro hc
        unfold ensure_prom_datasource
        rw [hput]
        dsimp only
        rw [if_pos hc]
      · intro hc
        unfold ensure_prom_datasource
        rw [hput]
        dsimp only
        rw [if_neg hc]
    · intro m s1 hput
      unfold ensure_prom_datasource
      rw [hput]
  · intro b url key region amp
    cases b <;> rfl

theorem datasource_upsert_spec_witness :
    ensure_prom_datasource grafanaPut grafanaPost "g" "k" "r" "a" ⟨true⟩ =
      ([Call.dsPut ("g" ++ "/api/datasources/uid/prom") (.bearer "k")
          (prom_payload "r" "a")], .ok (), (⟨true⟩ : GrafanaState)) ∧
    exceptOk (ensure_prom_datasource grafanaPut grafanaPost "g" "k" "r" "a"
      (ensure_prom_datasource grafanaPut grafanaPost "g" "k" "r" "a"
        ⟨false⟩).2.2).2.1 = true :=
  ⟨(datasource_upsert_spec.1 GrafanaState grafanaPut grafanaPost
      "g" "k" "r" "a" ⟨true⟩).1 ⟨true⟩ rfl,
   datasource_upsert_spec.2 false "g" "k" "r" "a"⟩

/-! ### Case equations and invariants of the import loop -/

lemma importLoop_cons_none (o : Oracle) (ep ak : String) (uri : List Char)
    (rest : List (List Char)) (k : Nat) (h : s3_request uri = none) :
    importLoop o ep ak (uri :: rest) k = importLoop o ep ak rest k := by
  have hget : get_dashboard_json o uri = (none, .ok none) := by
    unfold get_dashboard_json; rw [h]
  rw [importLoop, hget]
  rfl

lemma importLoop_cons_fetchErr (o : Oracle) (ep ak : String) (uri b key : List Char)
    (rest : List (List Char)) (k : Nat) (e : PyErr)
    (h : s3_request uri = some (b, key)) (he : o.s3GetResp b key = .error e) :
    importLoop o ep ak (uri :: rest) k = ([.s3Get b key], .error e) := by
  have hget : get_dashboard_json o uri = (some (.s3Get b key), .error e) := by
    unfold get_dashboard_json
    rw [h]
    dsimp only
    rw [he]
    rfl
  rw [importLoop, hget]
  rfl

lemma importLoop_cons_emptyBody (o : Oracle) (ep ak : String) (uri b key : List Char)
    (rest : List (List Char)) (k : Nat)
    (h : s3_request uri = some (b, key)) (hb : o.s3GetResp b key = .ok "") :
    importLoop o ep ak (uri :: rest) k =
      (.s3Get b key :: (importLoop o ep ak rest k).1, (importLoop o ep ak rest k).2) := by
  have hget : get_dashboard_json o uri = (some (.s3Get b key), .ok (some "")) := by
    unfold get_dashboard_json
    rw [h]
    dsimp only
    rw [hb]
    rfl
  rw [importLoop, hget]
  rfl

lemma importLoop_cons_loadErr (o : Oracle) (ep ak : String) (uri b key : List Char)
    (rest : List (List Char)) (k : Nat) (body : String) (e : PyErr)
    (h : s3_request uri = some (b, key)) (hb : o.s3GetResp b key = .ok body)
    (hbne : body ≠ "") (hl : o.loads body = .error e) :
    importLoop o ep ak (uri :: rest) k = ([.s3Get b key], .error e) := by
  have hget : get_dashboard_json o uri = (some (.s3Get b key), .ok (some body)) := by
    unfold get_dashboard_json
    rw [h]
    dsimp only
    rw [hb]
    rfl
  have himp : import_dashboard o ep ak body k = ([], .error e) := by
    unfold import_dashboard; rw [hl]
  rw [importLoop, hget]
  dsimp only
  rw [if_neg hbne, himp]
  rfl

lemma importLoop_cons_importErr (o : Oracle) (ep ak : String) (uri b key : List Char)
    (rest : List (List Char)) (k : Nat) (body : String) (d : Json) (e : PyErr)
    (h : s3_request uri = some (b, key)) (hb : o.s3GetResp b key = .ok body)
    (hbne : body ≠ "") (hl : o.loads body = .ok d) (hi : o.importResp k = .error e) :
    importLoop o ep ak (uri :: rest) k =
      ([.s3Get b key,
        .dashImport (ep ++ "/api/dashboards/db") (.bearer ak)
          { dashboard := d, overwrite := true, folderId := 0 } k], .error e) := by
  have hget : get_dashboard_json o uri = (some (.s3Get b key), .ok (some body)) := by
    unfold get_dashboard_json
    rw [h]
    dsimp only
    rw [hb]
    rfl
  have himp : import_dashboard o ep ak body k =
      ([.dashImport (ep ++ "/api/dashboards/db") (.bearer ak)
          { dashboard := d, overwrite := true, folderId := 0 } k], .error e) := by
    unfold import_dashboard; rw [hl, hi]
  rw [importLoop, hget]
  dsimp only
  rw [if_neg hbne, himp]
  rfl

lemma importLoop_cons_importOk (o : Oracle) (ep ak : String) (uri b key : List Char)
    (rest : List (List Char)) (k : Nat) (body : String) (d : Json)
    (h : s3_request uri = some (b, key)) (hb : o.s3GetResp b key = .ok body)
    (hbne : body ≠ "") (hl : o.loads body = .ok d) (hi : o.importResp k = .ok ()) :
    importLoop o ep ak (uri :: rest) k =
      (.s3Get b key ::
        .dashImport (ep ++ "/api/dashboards/db") (.bearer ak)
          { dashboard := d, overwrite := true, folderId := 0 } k ::
        (importLoop o ep ak rest (k + 1)).1,
       (importLoop o ep ak rest (k + 1)).2) := by
  have hget : get_dashboard_json o uri = (some (.s3Get b key), .ok (some body)) := by
    unfold get_dashboard_json
    rw [h]
    dsimp only
    rw [hb]
    rfl
  have himp : import_dashboard o ep ak body k =
      ([.dashImport (ep ++ "/api/dashboards/db") (.bearer ak)
          { dashboard := d, overwrite := true, folderId := 0 } k], .ok ()) := by
    unfold import_dashboard; rw [hl, hi]
  rw [importLoop, hget]
  dsimp only
  rw [if_neg hbne, himp]
  rfl

/-- The three loop invariants used by the handler claims: the loop issues
only backend calls, a dashboard import that failed is never followed by
another import, and when the loop succeeds its S3 fetches are exactly the
parseable locators, in list order. -/
lemma importLoop_props (o : Oracle) (ep ak : String) :
    ∀ (uris : List (List Char)) (k : Nat),
      ((importLoop o ep ak uris k).1).all Call.isBackend = true ∧
      noImportsAfterFailing o (importLoop o ep ak uris k).1 = true ∧
      (exceptOk (importLoop o ep ak uris k).2 = true →
        s3FetchesOf (importLoop o ep ak uris k).1 = uris.filterMap s3_request) := by
  intro uris
  induction uris with
  | nil =>
    intro k
    exact ⟨rfl, rfl, fun _ => rfl⟩
  | cons uri rest ih =>
    intro k
    cases hreq : s3_request uri with
    | none =>
      obtain ⟨ih1, ih2, ih3⟩ := ih k
      rw [importLoop_cons_none o ep ak uri rest k hreq]
      refine ⟨ih1, ih2, fun hr => ?_⟩
      rw [ih3 hr, List.filterMap_cons, hreq]
    | some bk =>
      obtain ⟨b, key⟩ := bk
      cases hs3 : o.s3GetResp b key with
      | error e =>
        rw [importLoop_cons_fetchErr o ep ak uri b key rest k e hreq hs3]
        refine ⟨rfl, rfl, fun hr => ?_⟩
        simp [exceptOk] at hr
      | ok body =>
        by_cases hbe : body = ""
        · subst hbe
          obtain ⟨ih1, ih2, ih3⟩ := ih k
          rw [importLoop_cons_emptyBody o ep ak uri b key rest k hreq hs3]
          refine ⟨?_, ?_, fun hr => ?_⟩
          · simp only [List.all_cons, ih1, Call.isBackend, Bool.true_and]
          · rw [noImportsAfterFailing,
              importOkOrNoneAfter_of_not_import o _ _ (by rfl), ih2]
            rfl
          · rw [List.filterMap_cons, hreq, ← ih3 hr]
            rfl
        · cases hl : o.loads body with
          | error e =>
            rw [importLoop_cons_loadErr o ep ak uri b key rest k body e hreq hs3 hbe hl]
            refine ⟨rfl, rfl, fun hr => ?_⟩
            simp [exceptOk] at hr
          | ok d =>
            cases hi : o.importResp k with
            | error e =>
              rw [importLoop_cons_importErr o ep ak uri b key rest k body d e
                hreq hs3 hbe hl hi]
              refine ⟨rfl, ?_, fun hr => ?_⟩
              · rw [noImportsAfterFailing,
                  importOkOrNoneAfter_of_not_import o _ _ (by rfl),
                  noImportsAfterFailing]
                simp [importOkOrNoneAfter, noImportsAfterFailing]
              · simp [exceptOk] at hr
            | ok u =>
              cases u
              obtain ⟨ih1, ih2, ih3⟩ := ih (k + 1)
              rw [importLoop_cons_importOk o ep ak uri b key rest k body d
                hreq hs3 hbe hl hi]
              refine ⟨?_, ?_, fun hr => ?_⟩
              · simp only [List.all_cons, ih1, Call.isBackend, Bool.true_and]
              · rw [noImportsAfterFailing,
                  importOkOrNoneAfter_of_not_import o _ _ (by rfl),
                  noImportsAfterFailing]
                simp [importOkOrNoneAfter, hi, exceptOk, ih2]
              · rw [List.filterMap_cons, hreq, ← ih3 hr]
                rfl

lemma ensure_calls_flags {σ : Type} (put post : σ → Except PyErr Unit × σ)
    (url key region amp : String) (s : σ) :
    ((ensure_prom_datasource put post url key region amp s).1).all
      Call.isBackend = true ∧
    ((ensure_prom_datasource put post url key region amp s).1).all
      (fun c => !c.isDashImport) = true := by
  unfold ensure_prom_datasource
  cases hput : put s with
  | mk r s1 =>
    cases r with
    | ok u => exact ⟨rfl, rfl⟩
    | error e =>
      cases e with
      | httpError code msg body =>
        dsimp only
        by_cases hc : code = 404 ∨ code = 400
        · rw [if_pos hc]
          exact ⟨rfl, rfl⟩
        · rw [if_neg hc]
          exact ⟨rfl, rfl⟩
      | other m => exact ⟨rfl, rfl⟩

/-- The Create/Update provisioning path issues only backend calls (never the
CloudFormation callback), and never imports a dashboard after one whose
request failed. -/
lemma provision_props (o : Oracle) (env : Env) :
    ((provision o env).1).all Call.isBackend = true ∧
    noImportsAfterFailing o (provision o env).1 = true := by
  unfold provision
  cases hA : env.AWS_REGION with
  | none => exact ⟨rfl, rfl⟩
  | some region =>
  cases hW : env.GRAFANA_WORKSPACE_ID with
  | none => exact ⟨rfl, rfl⟩
  | some workspace_id =>
  cases hE : env.GRAFANA_ENDPOINT with
  | none => exact ⟨rfl, rfl⟩
  | some endpoint =>
  cases hAmp : env.AMP_WORKSPACE_ID with
  | none => exact ⟨rfl, rfl⟩
  | some amp_workspace_id =>
  dsimp only [envGet]
  cases hK : o.createKey with
  | error e => exact ⟨rfl, rfl⟩
  | ok api_key =>
  dsimp only
  have hflags := ensure_calls_flags (fun u => (o.dsPutResp, u))
    (fun u => (o.dsPostResp, u)) endpoint api_key region amp_workspace_id ()
  cases hens : ensure_prom_datasource (fun u => (o.dsPutResp, u))
      (fun u => (o.dsPostResp, u)) endpoint api_key region amp_workspace_id () with
  | mk dsCalls rs =>
  rw [hens] at hflags
  cases rs with
  | mk r su =>
  cases r with
  | error e =>
    refine ⟨?_, ?_⟩
    · simp only [List.all_cons, Call.isBackend, Bool.true_and]
      exact hflags.1
    · rw [noImportsAfterFailing, importOkOrNoneAfter_of_not_import o
        (Call.createApiKey "cdk-provision" "ADMIN" 3600 workspace_id) _ rfl,
        noImp_of_no_imports o dsCalls hflags.2]
      rfl
  | ok u2 =>
    obtain ⟨l1, l2, _⟩ := importLoop_props o endpoint api_key
      (parseUris (env.DASHBOARD_URIS.getD [])) 0
    refine ⟨?_, ?_⟩
    · simp only [List.all_cons, Call.isBackend, Bool.true_and, List.all_append]
      rw [hflags.1, l1]
      rfl
    · rw [noImportsAfterFailing, importOkOrNoneAfter_of_not_import o
        (Call.createApiKey "cdk-provision" "ADMIN" 3600 workspace_id) _ rfl,
        noImp_append_left o dsCalls _ hflags.2, l2]
      rfl

lemma str_append_empty (s : String) : s ++ "" = s := by
  cases s with
  | mk data =>
    show String.mk (data ++ []) = String.mk data
    rw [List.append_nil]

lemma noImp_append_cfn (o : Oracle) (xs : List Call) (u : String) (b : CfnBody) :
    noImportsAfterFailing o (xs ++ [Call.cfnPut u b]) = noImportsAfterFailing o xs :=
  noImp_append_right o xs [Call.cfnPut u b] rfl

/-- C1. For every lifecycle event carrying a ResponseURL the handler's trace
is some backend calls followed by exactly one callback PUT to that URL and
nothing after it — no exception escapes, the catch turning any raised error
into the callback.  On Create/Update the callback is SUCCESS when
provisioning succeeded and FAILED when it raised, with the exception's
message contained in (and, when non-empty, equal to) the Reason; a
failing dashboard import is never followed by another one. -/
theorem handler_single_callback (o : Oracle) (env : Env) (event : Event)
    (ctx : Context) (url : String) (h : event.ResponseURL = some url) :
    ∃ pre body,
      handler o env event ctx = pre ++ [Call.cfnPut url body] ∧
      pre.all Call.isBackend = true ∧
      noImportsAfterFailing o (handler o env event ctx) = true ∧
      ((requestTypeOf event = "Create" ∨ requestTypeOf event = "Update") →
        ((provision o env).2 = .ok () → body.Status = "SUCCESS") ∧
        (∀ e, (provision o env).2 = .error e →
          body.Status = "FAILED" ∧
          (∃ a b, body.Reason = a ++ PyErr.message e ++ b) ∧
          (PyErr.message e ≠ "" → body.Reason = PyErr.message e))) ∧
      (¬(requestTypeOf event = "Create" ∨ requestTypeOf event = "Update") →
        body.Status = "SUCCESS") := by
  by_cases hrt : requestTypeOf event = "Create" ∨ requestTypeOf event = "Update"
  · cases hp : provision o env with
    | mk calls r =>
      have hprops := provision_props o env
      rw [hp] at hprops
      cases r with
      | ok u =>
        cases u
        have hsend : send_cfn_response event ctx "SUCCESS"
            [("Status", "Provisioned")] none =
            [Call.cfnPut url
              { Status := "SUCCESS"
                Reason := "See the details in CloudWatch Log Stream: "
                  ++ ctx.log_stream_name
                PhysicalResourceId := ctx.log_stream_name
                StackId := event.StackId
                RequestId := event.RequestId
                LogicalResourceId := event.LogicalResourceId
                Data := [("Status", "Provisioned")] }] := by
          unfold send_cfn_response
          rw [h]
          try rfl
        have htr : handler o env event ctx = calls ++ [Call.cfnPut url
              { Status := "SUCCESS"
                Reason := "See the details in CloudWatch Log Stream: "
                  ++ ctx.log_stream_name
                PhysicalResourceId := ctx.log_stream_name
                StackId := event.StackId
                RequestId := event.RequestId
                LogicalResourceId := event.LogicalResourceId
                Data := [("Status", "Provisioned")] }] := by
          unfold handler
          rw [if_pos hrt, hp]
          dsimp only
          rw [hsend]
        refine ⟨calls, _, htr, hprops.1, ?_, ?_, ?_⟩
        · rw [htr, noImp_append_cfn]
          exact hprops.2
        · intro _
          refine ⟨fun _ => rfl, ?_⟩
          intro e he
          simp at he
        · intro habs
          exact absurd hrt habs
      | error e =>
        have hsend : send_cfn_response event ctx "FAILED" []
            (some (PyErr.message e)) =
            [Call.cfnPut url
              { Status := "FAILED"
                Reason := reasonOrDefault (some (PyErr.message e))
                  ("See the details in CloudWatch Log Stream: "
                    ++ ctx.log_stream_name)
                PhysicalResourceId := ctx.log_stream_name
                StackId := event.StackId
                RequestId := event.RequestId
                LogicalResourceId := event.LogicalResourceId
                Data := [] }] := by
          unfold send_cfn_response
          rw [h]
          try rfl
        have htr : handler o env event ctx = calls ++ [Call.cfnPut url
              { Status := "FAILED"
                Reason := reasonOrDefault (some (PyErr.message e))
                  ("See the details in CloudWatch Log Stream: "
                    ++ ctx.log_stream_name)
                PhysicalResourceId := ctx.log_stream_name
                StackId := event.StackId
                RequestId := event.RequestId
                LogicalResourceId := event.LogicalResourceId
                Data := [] }] := by
          unfold handler
          rw [if_pos hrt, hp]
          dsimp only
          rw [hsend]
        refine ⟨calls, _, htr, hprops.1, ?_, ?_, ?_⟩
        · rw [htr, noImp_append_cfn]
          exact hprops.2
        · intro _
          refine ⟨?_, ?_⟩
          · intro hok
            simp at hok
          · intro e' he'
            simp at he'
            subst he'
            refine ⟨rfl, ?_, ?_⟩
            · by_cases hm : PyErr.message e = ""
              · refine ⟨"", "See the details in CloudWatch Log Stream: "
                  ++ ctx.log_stream_name, ?_⟩
                show reasonOrDefault (some (PyErr.message e)) _ = _
                rw [reasonOrDefault, if_pos hm, hm]
                rfl
              · refine ⟨"", "", ?_⟩
                show reasonOrDefault (some (PyErr.message e)) _ = _
                rw [reasonOrDefault, if_neg hm, str_append_empty]
                rfl
            · intro hm
              show reasonOrDefault (some (PyErr.message e)) _ = _
              rw [reasonOrDefault, if_neg hm]
        · intro habs
          exact absurd hrt habs
  · have hsend : send_cfn_response event ctx "SUCCESS" [("Status", "Deleted")] none =
        [Call.cfnPut url
          { Status := "SUCCESS"
            Reason := "See the details in CloudWatch Log Stream: "
              ++ ctx.log_stream_name
            PhysicalResourceId := ctx.log_stream_name
            StackId := event.StackId
            RequestId := event.RequestId
            LogicalResourceId := event.LogicalResourceId
            Data := [("Status", "Deleted")] }] := by
      unfold send_cfn_response
      rw [h]
      rfl
    have htr : handler o env event ctx = [Call.cfnPut url
          { Status := "SUCCESS"
            Reason := "See the details in CloudWatch Log Stream: "
              ++ ctx.log_stream_name
            PhysicalResourceId := ctx.log_stream_name
            StackId := event.StackId
            RequestId := event.RequestId
            LogicalResourceId := event.LogicalResourceId
            Data := [("Status", "Deleted")] }] := by
      unfold handler
      rw [if_neg hrt, hsend]
    refine ⟨[], _, by rw [htr]; rfl, rfl, ?_, ?_, fun _ => rfl⟩
    · rw [htr]
      rfl
    · intro habs
      exact absurd habs hrt

/-- Environment used by the concrete witnesses: all variables set, two
dashboard locators with a blank entry between them. -/
def envOK : Env where
  AWS_REGION := some "eu-west-1"
  GRAFANA_WORKSPACE_ID := some "gws"
  GRAFANA_ENDPOINT := some "https://g.example"
  AMP_WORKSPACE_ID := some "amp1"
  DASHBOARD_URIS := some "s3://b/a.json, ,s3://b/c.json".toList

/-- Context used by the concrete witnesses. -/
def ctxEx : Context := ⟨"stream-1"⟩

/-- A Create lifecycle event with a callback URL. -/
def eventCreateEx : Event :=
  ⟨some "Create", some "https://cb.example", "stack-1", "req-1", "logical-1"⟩

theorem handler_single_callback_witness :
    ∃ pre body,
      handler oracleOK envOK eventCreateEx ctxEx =
        pre ++ [Call.cfnPut "https://cb.example" body] ∧
      pre.all Call.isBackend = true ∧
      noImportsAfterFailing oracleOK (handler oracleOK envOK eventCreateEx ctxEx) = true ∧
      ((requestTypeOf eventCreateEx = "Create" ∨ requestTypeOf eventCreateEx = "Update") →
        ((provision oracleOK envOK).2 = .ok () → body.Status = "SUCCESS") ∧
        (∀ e, (provision oracleOK envOK).2 = .error e →
          body.Status = "FAILED" ∧
          (∃ a b, body.Reason = a ++ PyErr.message e ++ b) ∧
          (PyErr.message e ≠ "" → body.Reason = PyErr.message e))) ∧
      (¬(requestTypeOf eventCreateEx = "Create" ∨ requestTypeOf eventCreateEx = "Update") →
        body.Status = "SUCCESS") :=
  handler_single_callback oracleOK envOK eventCreateEx ctxEx "https://cb.example" rfl

/-- C4. A Delete lifecycle event with a ResponseURL produces exactly one
SUCCESS callback with Data `{'Status': 'Deleted'}` and the trace contains no
backend call at all — nothing is torn down and nothing else is contacted. -/
theorem delete_event_noop (o : Oracle) (env : Env) (event : Event) (ctx : Context)
    (url : String) (h1 : event.RequestType = some "Delete")
    (h2 : event.ResponseURL = some url) :
    ∃ body,
      handler o env event ctx = [Call.cfnPut url body] ∧
      body.Status = "SUCCESS" ∧ body.Data = [("Status", "Deleted")] ∧
      (handler o env event ctx).all (fun c => !c.isBackend) = true := by
  have hrt : requestTypeOf event = "Delete" := by
    unfold requestTypeOf
    rw [h1]
    rfl
  have hcond : ¬(requestTypeOf event = "Create" ∨ requestTypeOf event = "Update") := by
    rw [hrt]
    rintro (habs | habs)
    · exact absurd habs (by decide)
    · exact absurd habs (by decide)
  have htr : handler o env event ctx = [Call.cfnPut url
        { Status := "SUCCESS"
          Reason := "See the details in CloudWatch Log Stream: "
            ++ ctx.log_stream_name
          PhysicalResourceId := ctx.log_stream_name
          StackId := event.StackId
          RequestId := event.RequestId
          LogicalResourceId := event.LogicalResourceId
          Data := [("Status", "Deleted")] }] := by
    unfold handler
    rw [if_neg hcond]
    unfold send_cfn_response
    rw [h2]
    rfl
  refine ⟨_, htr, rfl, rfl, ?_⟩
  rw [htr]
  rfl

/-- A Delete lifecycle event with a callback URL. -/
def eventDeleteEx : Event :=
  ⟨some "Delete", some "https://cb.example", "stack-1", "req-1", "logical-1"⟩

theorem delete_event_noop_witness :
    ∃ body,
      handler oracleOK envOK eventDeleteEx ctxEx =
        [Call.cfnPut "https://cb.example" body] ∧
      body.Status = "SUCCESS" ∧ body.Data = [("Status", "Deleted")] ∧
      (handler oracleOK envOK eventDeleteEx ctxEx).all (fun c => !c.isBackend) = true :=
  delete_event_noop oracleOK envOK eventDeleteEx ctxEx "https://cb.example" rfl rfl

/-- C9. The dispatch is not three-way: an event with no RequestType at all
behaves exactly like one with RequestType Create (full provisioning path),
and every value other than Create and Update — not only Delete — takes the
delete branch: one SUCCESS callback with Data `{'Status': 'Deleted'}`, zero
backend calls. -/
theorem request_type_dispatch (o : Oracle) (env : Env) (ctx : Context)
    (ru : Option String) (sid rid lid : String) :
    handler o env ⟨none, ru, sid, rid, lid⟩ ctx =
      handler o env ⟨some "Create", ru, sid, rid, lid⟩ ctx ∧
    ∀ rt : String, rt ≠ "Create" → rt ≠ "Update" →
      handler o env ⟨some rt, ru, sid, rid, lid⟩ ctx =
        send_cfn_response ⟨some rt, ru, sid, rid, lid⟩ ctx "SUCCESS"
          [("Status", "Deleted")] none ∧
      (handler o env ⟨some rt, ru, sid, rid, lid⟩ ctx).all
        (fun c => !c.isBackend) = true := by
  constructor
  · rfl
  · intro rt hrt1 hrt2
    have hcond : ¬(requestTypeOf ⟨some rt, ru, sid, rid, lid⟩ = "Create" ∨
        requestTypeOf ⟨some rt, ru, sid, rid, lid⟩ = "Update") := by
      rintro (habs | habs)
      · exact hrt1 habs
      · exact hrt2 habs
    have htr : handler o env ⟨some rt, ru, sid, rid, lid⟩ ctx =
        send_cfn_response ⟨some rt, ru, sid, rid, lid⟩ ctx "SUCCESS"
          [("Status", "Deleted")] none := by
      unfold handler
      rw [if_neg hcond]
    refine ⟨htr, ?_⟩
    rw [htr]
    unfold send_cfn_response
    cases ru with
    | none => rfl
    | some u => rfl

theorem request_type_dispatch_witness :
    handler oracleOK envOK
        ⟨some "Read", some "https://cb.example", "stack-1", "req-1", "logical-1"⟩ ctxEx =
      send_cfn_response
        ⟨some "Read", some "https://cb.example", "stack-1", "req-1", "logical-1"⟩ ctxEx
        "SUCCESS" [("Status", "Deleted")] none ∧
    (handler oracleOK envOK
        ⟨some "Read", some "https://cb.example", "stack-1", "req-1", "logical-1"⟩ ctxEx).all
      (fun c => !c.isBackend) = true :=
  (request_type_dispatch oracleOK envOK ctxEx (some "https://cb.example")
    "stack-1" "req-1" "logical-1").2 "Read" (by decide) (by decide)

/-- C6. The handler splits `DASHBOARD_URIS` on commas, strips each entry,
drops blanks — on the spec's example leaving `a.json` and `c.json` — and,
whenever the loop runs to completion, its S3 fetches are exactly the
parseable locators in left-to-right list order. -/
theorem dashboard_uris_order :
    parseUris "s3://b/a.json, ,s3://b/c.json".toList =
      ["s3://b/a.json".toList, "s3://b/c.json".toList] ∧
    ∀ (o : Oracle) (ep ak : String) (uris : List Char) (k : Nat),
      exceptOk (importLoop o ep ak (parseUris uris) k).2 = true →
      s3FetchesOf (importLoop o ep ak (parseUris uris) k).1 =
        (parseUris uris).filterMap s3_request := by
  constructor
  · decide
  · intro o ep ak uris k hok
    exact (importLoop_props o ep ak (parseUris uris) k).2.2 hok

theorem dashboard_uris_order_witness :
    s3FetchesOf (importLoop oracleOK "https://g.example" "apikey"
      (parseUris "s3://b/a.json, ,s3://b/c.json".toList) 0).1 =
      (parseUris "s3://b/a.json, ,s3://b/c.json".toList).filterMap s3_request :=
  dashboard_uris_order.2 oracleOK "https://g.example" "apikey"
    "s3://b/a.json, ,s3://b/c.json".toList 0 (by decide)

end LiveEvent
